import Mathlib

/-!
Verification of the model-artifact provisioning pipeline implemented in
`web/goserver/src/server/domains/model/pkg/service/update_from_local.go`.

The Go code is shallowly embedded: pure computations become Lean functions,
and every external effect (filesystem, network download, the document store,
the SHA-256 digest, the YAML decoder applied to manifest bytes) is threaded
through explicit oracle records (`World`, `Store`), so each Lean definition
mirrors the control flow of the corresponding Go function.
-/

namespace UFL

/-! ## Generic helpers: hex encoding and path manipulation -/

/-- Lower-case hex digit, as used by Go `encoding/hex` ("0123456789abcdef"). -/
def hexDigit (n : Nat) : Char :=
  if n < 10 then Char.ofNat (48 + n) else Char.ofNat (87 + n)

/-- Models Go `hex.EncodeToString`: every byte becomes its high nibble digit
followed by its low nibble digit, in lower case. Bytes are `Nat`s taken mod 256. -/
def hexEncode (bs : List Nat) : String :=
  String.mk (bs.flatMap fun b => [hexDigit (b % 256 / 16), hexDigit (b % 16)])

/-- Models Go `path/filepath.Join` on two components, for already-clean
components (the `Clean` normalization pass of the Go function is elided:
every path the embedded code joins is used symbolically). -/
def pathJoin (a b : String) : String :=
  if a = "" then b else if b = "" then a else a ++ "/" ++ b

/-- Lower-case an ASCII letter, leaving every other character unchanged. -/
def asciiLowerChar (c : Char) : Char :=
  if 65 ≤ c.toNat && c.toNat ≤ 90 then Char.ofNat (c.toNat + 32) else c

/-- Lower-case the ASCII letters of a string. -/
def asciiLower (s : String) : String := String.mk (s.data.map asciiLowerChar)

/-- Split a character list at a separator, keeping empty components
(the behavior of `strings.Split`/`String.splitOn`). -/
def splitCharAux (sep : Char) : List Char → List Char → List (List Char)
  | acc, [] => [acc.reverse]
  | acc, c :: rest =>
    if c = sep then acc.reverse :: splitCharAux sep [] rest
    else splitCharAux sep (c :: acc) rest

/-- Split a character list into its whitespace-separated words. -/
def splitWordsAux : List Char → List Char → List (List Char)
  | acc, [] => if acc.isEmpty then [] else [acc.reverse]
  | acc, c :: rest =>
    if c = ' ' then
      if acc.isEmpty then splitWordsAux [] rest
      else acc.reverse :: splitWordsAux [] rest
    else splitWordsAux (c :: acc) rest

/-- Models Go `path/filepath.Dir` (drop the final path component; `"."` when
there is no separator), with `Clean` normalization elided. -/
def pathDir (p : String) : String :=
  let parts := splitCharAux '/' [] p.data
  if parts.length ≤ 1 then "."
  else String.mk (List.intercalate ['/'] parts.dropLast)

/-! ## URL validation (`isValidUrl`)

`isValidUrl` in the Go source calls `url.ParseRequestURI` and `url.Parse`
(Go standard library `net/url`) and accepts exactly the strings that parse
with a non-empty scheme and a non-empty host. The model below reproduces
that scheme/host extraction: a scheme is a leading `[a-zA-Z][a-zA-Z0-9+-.]*`
before the first `':'`; the host is the authority component after `"//"`,
up to the next `/`, `?` or `#`, with any user-info prefix (up to the last
`'@'`) removed; strings containing ASCII control bytes are rejected as
`net/url` rejects them. Host-character validation of rare malformed hosts
is elided. -/

def isCtl (c : Char) : Bool := c.val < 32 || c.val == 127

def isSchemeChar (c : Char) : Bool :=
  c.isAlpha || c.isDigit || c == '+' || c == '-' || c == '.'

/-- Split a leading URL scheme: `some (scheme, rest-after-colon)` when the
string has a syntactically valid non-empty scheme, `none` otherwise. -/
def splitScheme (cs : List Char) : Option (List Char × List Char) :=
  let pre := cs.takeWhile (fun c => c != ':')
  if pre.length = cs.length then none
  else
    match pre with
    | [] => none
    | c0 :: rest =>
      if c0.isAlpha && rest.all isSchemeChar then
        some (pre, cs.drop (pre.length + 1))
      else none

/-- Drop a user-info prefix (everything up to the last `'@'`) from an
authority component, as `net/url` does when extracting the host. -/
def afterLastAt (auth : List Char) : List Char :=
  (auth.reverse.takeWhile (fun c => c != '@')).reverse

/-- Host component of the part of an URL that follows `scheme:`. -/
def hostOf (rest : List Char) : List Char :=
  match rest with
  | '/' :: '/' :: tail =>
    afterLastAt (tail.takeWhile (fun c => c != '/' && c != '?' && c != '#'))
  | _ => []

/-- Translated from `isValidUrl` (update_from_local.go): true exactly when
the string parses as an absolute URL with a non-empty scheme and host. -/
def isValidUrl (s : String) : Bool :=
  if s.data.any isCtl then false
  else
    match splitScheme s.data with
    | none => false
    | some (_, rest) => !(hostOf rest).isEmpty

/-! ## Data model

`t.Dependency`, `t.Metric`, `t.Problem`, `t.Build`, `t.Model`, `t.Evaluate`
and `t.Scripts` live in `server/db/pkg/types`, which is not under `src/`;
they are modelled from the spec (§3, §6). Mongo `primitive.ObjectID`s are
modelled as byte lists whose hex form is `hexEncode`. -/

/-- Dependency entry of a manifest (spec §6: `dependencies[]{source,
destination,sha256,size}`; the fields are also visible at the Go use sites). -/
structure Dependency where
  source : String
  destination : String
  sha256 : String
  size : Int
deriving DecidableEq

/-- Modelled from the spec: `t.Metric` of `server/db/pkg/types` is not under
`src/`; the spec (§6) shows metrics as structured records with unspecified
fields, so a representative two-field record is used. -/
structure Metric where
  key : String
  value : String
deriving DecidableEq

structure Basic where
  batchSize : Int
  epochs : Int
deriving DecidableEq

structure HyperParameters where
  basic : Basic
deriving DecidableEq

/-- The decoded manifest (`ModelYml` in the Go source). The unused
`base_learning_rate` float field is omitted (no modelled operation reads it). -/
structure ModelYml where
  domain : String
  name : String
  problem : String
  dependencies : List Dependency
  metrics : List Metric
  gpuNum : Int
  config : String
  hyperParameters : HyperParameters
deriving DecidableEq

def Basic.zero : Basic := { batchSize := 0, epochs := 0 }

def HyperParameters.zero : HyperParameters := { basic := Basic.zero }

/-- The Go zero value of `ModelYml`, produced when decoding fails. -/
def ModelYml.zero : ModelYml :=
  { domain := "", name := "", problem := "", dependencies := [], metrics := [],
    gpuNum := 0, config := "", hyperParameters := HyperParameters.zero }

/-- Modelled from the spec: `t.Problem` (§3) — pre-existing entity with an
identifier, a root directory, and a title. -/
structure Problem where
  id : List Nat
  dir : String
  title : String
deriving DecidableEq

/-- Modelled from the spec: `t.Build` (§3) — identified by `(problemId, name)`
with a status. -/
structure Build where
  id : List Nat
  problemId : List Nat
  name : String
  status : String
deriving DecidableEq

structure Scripts where
  train : String
  eval : String
deriving DecidableEq

/-- Modelled from the spec: `t.Evaluate` (§3) — per-build metrics snapshot
plus a status enum. -/
structure Evaluate where
  metrics : List Metric
  status : String
deriving DecidableEq

/-- Modelled from the spec: `t.Model` (§3) — the persisted record, including
a build-id-keyed metrics map and Evaluate map (modelled as association lists). -/
structure Model where
  batchSize : Int
  configPath : String
  problemId : List Nat
  description : String
  dir : String
  epochs : Int
  evaluates : List (String × Evaluate)
  framework : String
  metrics : List (String × List Metric)
  modulesYamlPath : String
  name : String
  scripts : Scripts
  snapshotPath : String
  status : String
  templatePath : String
  trainingGpuNum : Int
deriving DecidableEq

/-- Modelled from the spec: `server/db/pkg/types/build/status.Default`
(not under `src/`) — the default status of a newly inserted build. -/
def buildStatusDefault : String := "buildDefault"

/-- Modelled from the spec: `server/db/pkg/types/status/model/evaluate.Default`
(not under `src/`) — the default, not-yet-run evaluation status. -/
def statusModelEvaluateDefault : String := "evaluateDefault"

/-- Modelled from the spec: `server/db/pkg/types/status/model/train.Default`
(not under `src/`) — the initial train status of a model. -/
def statusModelTrainDefault : String := "trainDefault"

/-- Modelled from the spec: `server/kit/utils.StringToFolderName` is not under
`src/`; spec §4.4/§8 describe it as deriving a filesystem-safe folder name by
lower-casing and collapsing whitespace to a path-safe separator
(`"My Model"` becomes `"my-model"`). -/
def stringToFolderName (s : String) : String :=
  String.mk (List.intercalate ['-'] (splitWordsAux [] (s.data.map asciiLowerChar)))

/-- `primitive.ObjectID.IsZero`: every byte of the id is zero. -/
def isZeroId (id : List Nat) : Bool := id.all (fun b => b == 0)

/-! ## Effect oracles

`World` packages the filesystem / network / crypto / YAML collaborators the
Go code calls (`ioutil.ReadFile`, `yaml.Unmarshal`, `os.Stat`, `uFiles.Copy`,
`uFiles.CopyDir`, `u.DownloadFile`, `crypto/sha256`, file writes); `Store`
packages the document-store handlers (spec §6). Errors are abstract strings;
`none` is Go's `nil` error. -/

/-- Result of `os.Stat`: only `IsDir` is consulted by the embedded code. -/
structure Stat where
  isDir : Bool
deriving DecidableEq

/-- One `u.DownloadFile` outcome: a network error, or the downloaded bytes
(so the byte count is the length and the file at `dst` has that content). -/
inductive AttemptResult where
  | netErr
  | ok (content : List Nat)
deriving DecidableEq

structure World where
  readFile : String → Except String (List Nat)
  unmarshalModelYml : List Nat → Except String ModelYml
  stat : String → Except String Stat
  copyFile : String → String → Option String
  copyDir : String → String → Option String
  download : String → Nat → AttemptResult
  sha256 : List Nat → List Nat
  writeFile : String → Option String

/-- Store operations issued by the pipeline, in order (spec §6 collaborators). -/
inductive StoreOp where
  | problemFind (title : String)
  | buildFind (problemId : List Nat) (name : String)
  | buildInsert (problemId : List Nat) (name : String) (status : String)
  | modelUpsert (name : String) (problemId : List Nat)
deriving DecidableEq

structure Store where
  problemFindOne : String → Problem × Nat
  buildFindOne : List Nat → String → Build
  buildInsertOne : List Nat → String → String → Build
  modelUpdateUpsert : Model → Model

/-! ## YAML document trees (for the metrics side-file)

`saveMetrics` marshals `MetricsYaml{Metrics []t.Metric}` with `gopkg.in/yaml.v2`
(external library). The marshalled document is modelled as a YAML value tree;
the byte-level rendering of the tree and its re-parsing are the external
library's faithful serialization, so the round trip is proved at tree level. -/

inductive YamlValue where
  | str (s : String)
  | seq (xs : List YamlValue)
  | map (kvs : List (String × YamlValue))

/-- YAML tree of one `t.Metric` (field names follow the modelled record). -/
def encodeMetric (m : Metric) : YamlValue :=
  .map [("key", .str m.key), ("value", .str m.value)]

/-- YAML decoding of one metric node. -/
def decodeMetric : YamlValue → Option Metric
  | .map [(k1, .str v1), (k2, .str v2)] =>
    if k1 = "key" && k2 = "value" then some { key := v1, value := v2 } else none
  | _ => none

/-- YAML decoding of a metric sequence; fails if any element fails. -/
def decodeMetricList : List YamlValue → Option (List Metric)
  | [] => some []
  | v :: rest =>
    match decodeMetric v, decodeMetricList rest with
    | some m, some ms => some (m :: ms)
    | _, _ => none

/-- Decoding of the whole metrics side-file: a single `metrics` key holding
a sequence of metrics (the `MetricsYaml` schema of `saveMetrics`). -/
def unmarshalMetricsYaml : YamlValue → Option (List Metric)
  | .map [(k, .seq xs)] => if k = "metrics" then decodeMetricList xs else none
  | _ => none

/-! ## Operations translated from update_from_local.go -/

/-- A single file write: destination path and the YAML document written. -/
structure FileWrite where
  path : String
  content : YamlValue

/-- Translated from `saveMetrics` (the data it writes): the metrics side-file
at `fp.Join(to, "_default", "metrics.yaml")` holding `MetricsYaml{Metrics:
modelYml.Metrics}`. The `MkdirAll`/`Create`/`Write`/`Sync` error handling only
logs, so the write target and content are world-independent. -/
def saveMetrics (toDir : String) (modelYml : ModelYml) : FileWrite :=
  { path := pathJoin (pathJoin toDir "_default") "metrics.yaml",
    content := YamlValue.map [("metrics", YamlValue.seq (modelYml.metrics.map encodeMetric))] }

/-- The error `saveMetrics` would observe (and log) for its write, from the
world oracle. -/
def saveMetricsRun (w : World) (toDir : String) (modelYml : ModelYml) : Option String :=
  w.writeFile (saveMetrics toDir modelYml).path

/-- Bytes handed to `yaml.Unmarshal` by `getTemplateYaml`: the file content,
or nil (`[]`) when `ioutil.ReadFile` failed (the read error is only logged). -/
def readBytes (w : World) (path : String) : List Nat :=
  match w.readFile path with
  | .error _ => []
  | .ok bs => bs

/-- Translated from `getTemplateYaml`: read the manifest, decode it; decode
errors are logged and dropped, leaving the zero-valued descriptor. -/
def getTemplateYaml (w : World) (path : String) : ModelYml :=
  match w.unmarshalModelYml (readBytes w path) with
  | .error _ => ModelYml.zero
  | .ok m => m

/-- Translated from `getProblem`: one `problemFindOne` exchange; a non-nil
error is returned exactly when the response error code is positive. -/
def getProblem (s : Store) (title : String) : Problem × Option String :=
  let resp := s.problemFindOne title
  (resp.1, if resp.2 > 0 then some "problem lookup failed" else none)

/-- Translated from `getSha265`: stream the file (here: the downloaded
content) through SHA-256 and hex-encode the digest. -/
def getSha265 (w : World) (content : List Nat) : String :=
  hexEncode (w.sha256 content)

/-- Loop body of `downloadWithCheck`, attempt `i`: the attempt succeeds
(reaches `break`) iff the download returned no error, the byte count equals
`size`, and the hex digest equals `sha` by exact string comparison. -/
def attemptSucceeds (w : World) (url sha : String) (size : Int) (i : Nat) : Bool :=
  match w.download url i with
  | .netErr => false
  | .ok content => (Int.ofNat content.length == size) && (getSha265 w content == sha)

/-- The `for i := 0; i < 10; i++` retry loop: returns the number of attempts
performed (stops after the first successful attempt, or after `fuel` failures). -/
def downloadWithCheckLoop (ok : Nat → Bool) : Nat → Nat → Nat
  | 0, i => i
  | fuel + 1, i => if ok i then i + 1 else downloadWithCheckLoop ok fuel (i + 1)

/-- Translated from `downloadWithCheck`: up to 10 sequential attempts, each a
full re-download verified against size and sha; the function body ends in an
unconditional `return nil`, so the returned error is `none` in every case.
Result: (returned error, number of attempts performed). -/
def downloadWithCheck (w : World) (url dst sha : String) (size : Int) :
    Option String × Nat :=
  let _ := dst
  (none, downloadWithCheckLoop (attemptSucceeds w url sha size) 10 0)

/-- Translated from `copyFiles`: stat the source (stat errors are returned);
directories are copied recursively with the `CopyDir` error only logged;
regular files are copied with the `Copy` error returned. -/
def copyFiles (w : World) (src dst : String) : Option String :=
  match w.stat src with
  | .error e => some e
  | .ok si =>
    if si.isDir then
      let _ := w.copyDir src dst
      none
    else
      match w.copyFile src dst with
      | some e => some e
      | none => none

/-- How one dependency is materialized: a verified network download, or a
local copy from the manifest's directory. -/
inductive DepAction where
  | download (url dst sha : String) (size : Int)
  | localCopy (src dst : String)
deriving DecidableEq

/-- Translated from `copyDependencies`: each dependency is routed by
`isValidUrl` — valid absolute URLs are downloaded with verification, anything
else is copied from `fp.Join(from, d.Source)`. -/
def copyDependencies (fromDir toDir : String) (modelYml : ModelYml) : List DepAction :=
  modelYml.dependencies.map fun d =>
    let toPath := pathJoin toDir d.destination
    if isValidUrl d.source then
      .download d.source toPath d.sha256 d.size
    else
      .localCopy (pathJoin fromDir d.source) toPath

/-- Execute one routed dependency action against the world, yielding the
error that `copyDependencies` logs for it (`none` when nothing was logged). -/
def runDepAction (w : World) : DepAction → Option String
  | .download url dst sha size => (downloadWithCheck w url dst sha size).1
  | .localCopy src dst => copyFiles w src dst

/-- The five materialization phases of `copyModelFiles`, labelled with the
paths/actions they operate on. -/
inductive Phase where
  | config (src dst : String)
  | modules (src dst : String)
  | dependency (a : DepAction)
  | metrics (path : String)
  | template (src dst : String)
deriving DecidableEq

/-- Translated from `copyModelFiles`: runs `copyConfig`, `copyModulesYaml`,
`copyDependencies`, `saveMetrics`, `copyTemplateYaml` in sequence; every step
only logs its errors, so each list entry pairs the attempted phase with the
error recorded for it. -/
def copyModelFiles (w : World) (fromDir toDir modelTemplatePath : String)
    (modelYml : ModelYml) : List (Phase × Option String) :=
  [(.config (pathJoin fromDir modelYml.config) (pathJoin toDir modelYml.config),
      copyFiles w (pathJoin fromDir modelYml.config) (pathJoin toDir modelYml.config)),
   (.modules (pathJoin fromDir "modules.yaml") (pathJoin toDir "modules.yaml"),
      copyFiles w (pathJoin fromDir "modules.yaml") (pathJoin toDir "modules.yaml"))]
  ++ (copyDependencies fromDir toDir modelYml).map (fun a => (.dependency a, runDepAction w a))
  ++ [(.metrics (saveMetrics toDir modelYml).path, saveMetricsRun w toDir modelYml),
      (.template modelTemplatePath (pathJoin toDir "template.yaml"),
        copyFiles w modelTemplatePath (pathJoin toDir "template.yaml"))]

/-- Translated from `prepareModel`: pure derivation of the model record from
`(modelYml, buildId, problem)`. The source builds a local `metrics` map keyed
by `buildId.Hex()` but never stores it in the returned `t.Model` literal, so
the record's metrics map is left at its zero value. -/
def prepareModel (modelYml : ModelYml) (buildId : List Nat) (problem : Problem) : Model :=
  let modelFolderName := stringToFolderName modelYml.name
  let dir := pathJoin problem.dir modelFolderName
  let _metrics : List (String × List Metric) := [(hexEncode buildId, modelYml.metrics)]
  let evaluates : List (String × Evaluate) :=
    [(hexEncode buildId, { metrics := modelYml.metrics, status := statusModelEvaluateDefault })]
  { batchSize := modelYml.hyperParameters.basic.batchSize,
    configPath := pathJoin dir modelYml.config,
    problemId := problem.id,
    description := "",
    dir := dir,
    epochs := modelYml.hyperParameters.basic.epochs,
    evaluates := evaluates,
    framework := "",
    metrics := [],
    modulesYamlPath := pathJoin dir "modules.yaml",
    name := modelYml.name,
    scripts := { train := pathJoin dir "train.py", eval := pathJoin dir "eval.py" },
    snapshotPath := pathJoin dir "snapshot.pth",
    status := statusModelTrainDefault,
    templatePath := pathJoin dir "template.yaml",
    trainingGpuNum := modelYml.gpuNum }

/-- Translated from `getDefaultBuild`: look up `(problemId, "default")`; when
the found record's id is zero, insert a build named `"default"` with the
default status and return it; otherwise return the found record. Also yields
the store operations issued. -/
def getDefaultBuild (s : Store) (problemId : List Nat) : Build × List StoreOp :=
  let result := s.buildFindOne problemId "default"
  if isZeroId result.id then
    (s.buildInsertOne problemId "default" buildStatusDefault,
     [.buildFind problemId "default", .buildInsert problemId "default" buildStatusDefault])
  else
    (result, [.buildFind problemId "default"])

/-- Translated from `updateCreateModel`: one `modelUpdateUpsert` exchange
returning the persisted record. -/
def updateCreateModel (s : Store) (model : Model) : Model :=
  s.modelUpdateUpsert model

/-- One message on the response channel (`kitendpoint.Response`). -/
structure Response where
  data : Option Model
  errCode : Nat
  isLast : Bool
deriving DecidableEq

/-- Everything the `UpdateFromLocal` goroutine does: the messages sent on the
response channel, the store operations issued, and the filesystem phases run. -/
structure UFLResult where
  responses : List Response
  storeOps : List StoreOp
  fsSteps : List (Phase × Option String)
deriving DecidableEq

/-- Translated from `UpdateFromLocal`: load the manifest, resolve the problem
(terminal error response with code 1 on failure), get-or-create the default
build, prepare the model, materialize its files, upsert the record, and send
the single terminal success response with code 0. -/
def UpdateFromLocal (s : Store) (w : World) (path : String) : UFLResult :=
  let templateYaml := getTemplateYaml w path
  let pe := getProblem s templateYaml.problem
  match pe.2 with
  | some _ =>
    { responses := [{ data := none, errCode := 1, isLast := true }],
      storeOps := [.problemFind templateYaml.problem],
      fsSteps := [] }
  | none =>
    let problem := pe.1
    let db := getDefaultBuild s problem.id
    let model := prepareModel templateYaml db.1.id problem
    let fsSteps := copyModelFiles w (pathDir path) model.dir path templateYaml
    let finalModel := updateCreateModel s model
    { responses := [{ data := some finalModel, errCode := 0, isLast := true }],
      storeOps := [.problemFind templateYaml.problem] ++ db.2
        ++ [.modelUpsert model.name model.problemId],
      fsSteps := fsSteps }

/-! ## Concrete fixtures used by witnesses and counterexamples -/

/-- A world where every effect fails (downloads error, copies fail, the
manifest does not decode). -/
def worldAllFail : World :=
  { readFile := fun _ => .error "read failed",
    unmarshalModelYml := fun _ => .error "unmarshal failed",
    stat := fun _ => .error "stat failed",
    copyFile := fun _ _ => some "copy failed",
    copyDir := fun _ _ => some "copydir failed",
    download := fun _ _ => .netErr,
    sha256 := fun c => c,
    writeFile := fun _ => some "write failed" }

/-- A world whose first download attempt yields the single byte 0xAB, with
the digest oracle being the identity (so the file's digest is `"ab"`). -/
def worldFirstOk : World :=
  { worldAllFail with download := fun _ _ => .ok [171] }

/-- A world where the manifest file reads fine but fails to decode. -/
def worldBadYaml : World :=
  { worldAllFail with readFile := fun _ => .ok [1, 2] }

/-- A world where the copied source is a directory and the recursive
directory copy fails. -/
def worldDirFail : World :=
  { worldAllFail with stat := fun _ => .ok { isDir := true } }

def problemEx : Problem :=
  { id := [7], dir := "/data/animal-classifier", title := "Animal Classifier" }

/-- A store where the problem resolves and the default build already exists. -/
def storeOk : Store :=
  { problemFindOne := fun _ => (problemEx, 0),
    buildFindOne := fun pid _ => { id := [2], problemId := pid, name := "default", status := "s" },
    buildInsertOne := fun pid n st => { id := [3], problemId := pid, name := n, status := st },
    modelUpdateUpsert := fun m => m }

/-- A store whose problem lookup fails (error code 1). -/
def storeErrProblem : Store :=
  { storeOk with problemFindOne := fun _ => (problemEx, 1) }

/-- A store with no default build yet: the lookup returns a zero-id record. -/
def storeMissingBuild : Store :=
  { storeOk with
    buildFindOne := fun pid _ => { id := [0], problemId := pid, name := "default", status := "" } }

def ymlEx : ModelYml :=
  { domain := "detection", name := "My Model", problem := "Animal Classifier",
    dependencies := [], metrics := [{ key := "accuracy", value := "0.9" }],
    gpuNum := 1, config := "config.py",
    hyperParameters := { basic := { batchSize := 32, epochs := 5 } } }

def buildIdEx : List Nat := [1, 2, 3, 4, 5, 6, 7, 8, 9, 10, 11, 12]

/-- A manifest with one remote dependency and one local dependency. -/
def ymlDeps : ModelYml :=
  { ymlEx with dependencies :=
      [{ source := "http://example.com/w.bin", destination := "w.bin", sha256 := "ab", size := 1 },
       { source := "weights.bin", destination := "weights.bin", sha256 := "", size := 0 }] }

/-! ## Claim theorems -/

/-- Claim C1: the retry cap of 10 and the early stop on a verified attempt
hold, but the claimed error on exhaustion does not — `downloadWithCheck` ends
in an unconditional `return nil`, so after 10 failed attempts it still reports
success (`none`), silently accepting the unverified dependency. With every
attempt failing it performs all 10 attempts and returns no error; with the
first attempt verifying it stops after 1 attempt. -/
theorem downloadWithCheck_exhausted_retries_return_nil :
    downloadWithCheck worldAllFail "http://host/f.bin" "/out/f.bin" "ab" 1 = (none, 10) ∧
    downloadWithCheck worldFirstOk "http://host/f.bin" "/out/f.bin" "ab" 1 = (none, 1) := by
  exact ⟨rfl, rfl⟩

/-- Claim C2 counterexample: a manifest whose content fails to decode, yet the
terminal response carries success code 0 — the decode error is logged and
dropped by `getTemplateYaml`, never propagated to the caller's terminal
response, refuting the propagation part of the claim. -/
theorem getTemplateYaml_error_not_propagated_cex :
    worldBadYaml.unmarshalModelYml (readBytes worldBadYaml "m.yaml") =
      .error "unmarshal failed" ∧
    (UpdateFromLocal storeOk worldBadYaml "m.yaml").responses.map Response.errCode = [0] := by
  exact ⟨rfl, rfl⟩

/-- Claim C2 (amended): for every manifest whose content fails to decode,
`getTemplateYaml` yields the zero-valued descriptor without panicking; the
decode error is only logged and dropped, not returned. -/
theorem getTemplateYaml_decode_error_zero_value (w : World) (path e : String)
    (h : w.unmarshalModelYml (readBytes w path) = .error e) :
    getTemplateYaml w path = ModelYml.zero := by
  unfold getTemplateYaml
  rw [h]

/-- Witness for the amended C2 theorem at a concrete failing decode. -/
theorem getTemplateYaml_decode_error_zero_value_witness :
    getTemplateYaml worldBadYaml "m.yaml" = ModelYml.zero :=
  getTemplateYaml_decode_error_zero_value worldBadYaml "m.yaml" "unmarshal failed" rfl

/-- Claim C3: `UpdateFromLocal` sends exactly one terminal response: when the
problem lookup fails, a code-1 response with no data and no further store
operation; otherwise a code-0 response carrying the upserted model record. -/
theorem updateFromLocal_single_terminal_response (s : Store) (w : World) (path : String) :
    (UpdateFromLocal s w path).responses.length = 1 ∧
    (∀ r ∈ (UpdateFromLocal s w path).responses, r.isLast = true) ∧
    ((s.problemFindOne (getTemplateYaml w path).problem).2 > 0 →
      UpdateFromLocal s w path =
        { responses := [{ data := none, errCode := 1, isLast := true }],
          storeOps := [.problemFind (getTemplateYaml w path).problem],
          fsSteps := [] }) ∧
    ((s.problemFindOne (getTemplateYaml w path).problem).2 = 0 →
      (UpdateFromLocal s w path).responses =
        [{ data := some (updateCreateModel s (prepareModel (getTemplateYaml w path)
              (getDefaultBuild s (s.problemFindOne (getTemplateYaml w path).problem).1.id).1.id
              (s.problemFindOne (getTemplateYaml w path).problem).1)),
           errCode := 0, isLast := true }]) := by
  rcases Nat.eq_zero_or_pos (s.problemFindOne (getTemplateYaml w path).problem).2 with h | h
  · refine ⟨?_, ?_, ?_, ?_⟩
    · simp [UpdateFromLocal, getProblem, h]
    · intro r hr
      simp [UpdateFromLocal, getProblem, h] at hr
      simp [hr]
    · intro hpos
      omega
    · intro _
      simp [UpdateFromLocal, getProblem, h, updateCreateModel]
  · refine ⟨?_, ?_, ?_, ?_⟩
    · simp [UpdateFromLocal, getProblem, h]
    · intro r hr
      simp [UpdateFromLocal, getProblem, h] at hr
      simp [hr]
    · intro _
      simp [UpdateFromLocal, getProblem, h]
    · intro hzero
      omega

/-- Witness for C3 at concrete stores: a failing problem lookup yields the
single code-1 response; a successful one yields a single response. -/
theorem updateFromLocal_single_terminal_response_witness :
    (UpdateFromLocal storeErrProblem worldBadYaml "m.yaml").responses =
      [{ data := none, errCode := 1, isLast := true }] ∧
    (UpdateFromLocal storeOk worldBadYaml "m.yaml").responses.length = 1 := by
  constructor
  · have h :=
      (updateFromLocal_single_terminal_response storeErrProblem worldBadYaml "m.yaml").2.2.1
        (by decide)
    rw [h]
  · exact (updateFromLocal_single_terminal_response storeOk worldBadYaml "m.yaml").1

/-- Claim C4: `copyDependencies` routes each dependency by URL validity: a
source parsing as an absolute URL with scheme and host becomes a verified
network download; any other source becomes a local copy resolved relative to
the manifest's directory, never a network fetch. -/
theorem copyDependencies_routing (fromDir toDir : String) (yml : ModelYml)
    (i : Nat) (h : i < yml.dependencies.length) :
    (isValidUrl (yml.dependencies.get ⟨i, h⟩).source = true →
      (copyDependencies fromDir toDir yml).get ⟨i, by simpa [copyDependencies] using h⟩ =
        .download (yml.dependencies.get ⟨i, h⟩).source
          (pathJoin toDir (yml.dependencies.get ⟨i, h⟩).destination)
          (yml.dependencies.get ⟨i, h⟩).sha256
          (yml.dependencies.get ⟨i, h⟩).size) ∧
    (isValidUrl (yml.dependencies.get ⟨i, h⟩).source = false →
      (copyDependencies fromDir toDir yml).get ⟨i, by simpa [copyDependencies] using h⟩ =
        .localCopy (pathJoin fromDir (yml.dependencies.get ⟨i, h⟩).source)
          (pathJoin toDir (yml.dependencies.get ⟨i, h⟩).destination)) := by
  constructor <;> intro hv <;> simp [List.get_eq_getElem] at hv <;>
    simp [copyDependencies, List.get_eq_getElem, List.getElem_map, hv]

/-- Witness for C4 on a manifest with one remote and one local dependency. -/
theorem copyDependencies_routing_witness :
    (copyDependencies "mdir" "odir" ymlDeps).get ⟨0, by decide⟩ =
      .download "http://example.com/w.bin" (pathJoin "odir" "w.bin") "ab" 1 ∧
    (copyDependencies "mdir" "odir" ymlDeps).get ⟨1, by decide⟩ =
      .localCopy (pathJoin "mdir" "weights.bin") (pathJoin "odir" "weights.bin") := by
  constructor
  · exact (copyDependencies_routing "mdir" "odir" ymlDeps 0 (by decide)).1 (by decide)
  · exact (copyDependencies_routing "mdir" "odir" ymlDeps 1 (by decide)).2 (by decide)

/-- Claim C5 counterexample: the digest comparison is case-sensitive, not
case-insensitive: the computed digest of the byte 0xAB is `"ab"`, the expected
hash `"AB"` differs from it only in letter case, and the verification attempt
rejects it. -/
theorem sha_compare_case_sensitive_cex :
    hexEncode (worldFirstOk.sha256 [171]) = "ab" ∧
    asciiLower "AB" = "ab" ∧
    attemptSucceeds worldFirstOk "http://host/f.bin" "AB" 1 0 = false := by
  exact ⟨rfl, rfl, rfl⟩

/-- Claim C5 (amended): a download attempt verifies exactly when the byte
count equals the expected size and the lower-case hex-encoded SHA-256 digest
equals the expected string by exact (case-sensitive) string equality. -/
theorem attempt_verification_exact_match (w : World) (url sha : String) (size : Int)
    (i : Nat) (c : List Nat) (h : w.download url i = .ok c) :
    (attemptSucceeds w url sha size i = true ↔
      (Int.ofNat c.length = size ∧ hexEncode (w.sha256 c) = sha)) := by
  unfold attemptSucceeds
  rw [h]
  simp [getSha265]

/-- Witness for the amended C5 theorem: the first attempt of `worldFirstOk`
verifies against expected sha `"ab"` and size 1. -/
theorem attempt_verification_exact_match_witness :
    attemptSucceeds worldFirstOk "http://host/f.bin" "ab" 1 0 = true :=
  (attempt_verification_exact_match worldFirstOk "http://host/f.bin" "ab" 1 0 [171] rfl).mpr
    ⟨rfl, rfl⟩

/-- Claim C6: `getDefaultBuild` looks up `(problemId, "default")` and inserts
a build named `"default"` with the default status if and only if the lookup
returned a zero-id record, returning the found or inserted build. -/
theorem getDefaultBuild_get_or_create (s : Store) (pid : List Nat) :
    (isZeroId (s.buildFindOne pid "default").id = false →
      getDefaultBuild s pid = (s.buildFindOne pid "default", [.buildFind pid "default"])) ∧
    (isZeroId (s.buildFindOne pid "default").id = true →
      getDefaultBuild s pid =
        (s.buildInsertOne pid "default" buildStatusDefault,
         [.buildFind pid "default", .buildInsert pid "default" buildStatusDefault])) := by
  constructor <;> intro h <;> simp [getDefaultBuild, h]

/-- Witness for C6: with an existing default build the found record is
returned with no insert; with a zero-id lookup result the inserted default
build is returned. -/
theorem getDefaultBuild_get_or_create_witness :
    getDefaultBuild storeOk [7] =
      ({ id := [2], problemId := [7], name := "default", status := "s" },
       [.buildFind [7] "default"]) ∧
    getDefaultBuild storeMissingBuild [7] =
      ({ id := [3], problemId := [7], name := "default", status := buildStatusDefault },
       [.buildFind [7] "default", .buildInsert [7] "default" buildStatusDefault]) := by
  constructor
  · exact (getDefaultBuild_get_or_create storeOk [7]).1 (by decide)
  · exact (getDefaultBuild_get_or_create storeMissingBuild [7]).2 (by decide)

/-- Claim C7: for every failure assignment of the world, `copyModelFiles`
attempts all five materialization steps, in order: config copy, modules.yaml
copy, every dependency fetch/copy, the metrics side-file write, and the
template.yaml copy — no failure suppresses a later step. -/
theorem copyModelFiles_all_steps_attempted (w : World) (fromDir toDir tplPath : String)
    (yml : ModelYml) :
    (copyModelFiles w fromDir toDir tplPath yml).map Prod.fst =
      [.config (pathJoin fromDir yml.config) (pathJoin toDir yml.config),
       .modules (pathJoin fromDir "modules.yaml") (pathJoin toDir "modules.yaml")]
      ++ (copyDependencies fromDir toDir yml).map Phase.dependency
      ++ [.metrics (saveMetrics toDir yml).path,
          .template tplPath (pathJoin toDir "template.yaml")] := by
  simp [copyModelFiles, List.map_map]

/-- Claim C8: `prepareModel` derives the directory and anchored paths and the
single-entry evaluates map as claimed, but the buildId-keyed metrics map it
computes is never stored: the returned record's metrics map is empty, contrary
to the claim (and spec §4.4) that it contains exactly one entry. -/
theorem prepareModel_metrics_map_discarded :
    (prepareModel ymlEx buildIdEx problemEx).dir = "/data/animal-classifier/my-model" ∧
    (prepareModel ymlEx buildIdEx problemEx).configPath =
      "/data/animal-classifier/my-model/config.py" ∧
    (prepareModel ymlEx buildIdEx problemEx).templatePath =
      "/data/animal-classifier/my-model/template.yaml" ∧
    (prepareModel ymlEx buildIdEx problemEx).evaluates =
      [("0102030405060708090a0b0c",
        { metrics := [{ key := "accuracy", value := "0.9" }],
          status := statusModelEvaluateDefault })] ∧
    (prepareModel ymlEx buildIdEx problemEx).metrics = [] := by
  exact ⟨rfl, rfl, rfl, rfl, rfl⟩

/-- Decoding inverts encoding for a single metric node. -/
theorem decodeMetric_encodeMetric (m : Metric) : decodeMetric (encodeMetric m) = some m := by
  simp [encodeMetric, decodeMetric]

/-- Decoding inverts encoding for a metric sequence. -/
theorem decodeMetricList_encode (l : List Metric) :
    decodeMetricList (l.map encodeMetric) = some l := by
  induction l with
  | nil => rfl
  | cons m t ih => simp [decodeMetricList, decodeMetric_encodeMetric, ih]

/-- Claim C9: the metrics side-file is written at
`<modelDir>/_default/metrics.yaml`, contains exactly the manifest's metric
list under a single `metrics` key, and re-parsing it yields the manifest's
original metric list. -/
theorem saveMetrics_roundtrip (toDir : String) (yml : ModelYml) :
    (saveMetrics toDir yml).path = pathJoin (pathJoin toDir "_default") "metrics.yaml" ∧
    (saveMetrics toDir yml).content =
      YamlValue.map [("metrics", YamlValue.seq (yml.metrics.map encodeMetric))] ∧
    unmarshalMetricsYaml (saveMetrics toDir yml).content = some yml.metrics := by
  refine ⟨rfl, rfl, ?_⟩
  simp [saveMetrics, unmarshalMetricsYaml, decodeMetricList_encode]

/-- Claim C10: `copyFiles` reports errors asymmetrically: stat failures are
returned, single-file copy errors are returned, but when the source is a
directory the function returns nil no matter what the recursive copy did. -/
theorem copyFiles_error_asymmetry (w : World) (src dst : String) :
    (∀ e, w.stat src = .error e → copyFiles w src dst = some e) ∧
    (∀ si, w.stat src = .ok si → si.isDir = true → copyFiles w src dst = none) ∧
    (∀ si, w.stat src = .ok si → si.isDir = false →
      copyFiles w src dst = w.copyFile src dst) := by
  refine ⟨?_, ?_, ?_⟩
  · intro e he
    simp [copyFiles, he]
  · intro si hs hd
    simp [copyFiles, hs, hd]
  · intro si hs hd
    have hm : copyFiles w src dst =
        (match w.copyFile src dst with | some e => some e | none => none) := by
      simp [copyFiles, hs, hd]
    rw [hm]
    cases w.copyFile src dst <;> rfl

/-- Witness for C10: a world whose source is a directory and whose recursive
copy fails still gets a nil error from `copyFiles`. -/
theorem copyFiles_error_asymmetry_witness :
    copyFiles worldDirFail "/src/dir" "/dst/dir" = none ∧
    worldDirFail.copyDir "/src/dir" "/dst/dir" = some "copydir failed" := by
  constructor
  · exact (copyFiles_error_asymmetry worldDirFail "/src/dir" "/dst/dir").2.1
      { isDir := true } rfl rfl
  · rfl

end UFL
